import Mathlib

/-!
Verification of the deeptrust media-authenticity scoring core.

This file gives a shallow embedding, in Lean, of the four image analyzers
and the ensemble combiner found under
`backend/services/models/app/models/` (mesonet.py, xception.py,
frequency_analyzer.py, biological_analyzer.py, ensemble.py), and proves
the specified properties about them.

Modelling conventions:
* Python floats are modelled as real numbers (exact arithmetic).
* A decoded numpy pixel grid is a list of rows; a 2-D grid is
  `List (List ℝ)`, a 3-channel grid is `List (List (ℝ × ℝ × ℝ))`, etc.
  For the frequency analyzer, whose claims are about a fixed 256×256
  spectrum, grids are total functions `Fin H → Fin W → ℝ`.
* A Python `try/except` block is modelled by a total function on
  `Except String α`: the `ok` case is the value computed by the body of
  the `try`, the `error` case is a raised exception with its message.
  Totality of the Lean function is the "never raises outward" guarantee.
* External library calls that are not part of this repository
  (skimage `hog`, cv2 cascade detectors, cv2 `resize`) are parameters of
  the corresponding analyzer, so every statement is proved for every
  possible behaviour of those externals.
* Python dictionaries with conditionally present keys are modelled as
  structures with `Option` fields: `none` means the key is absent.
-/

set_option maxRecDepth 8000

namespace Deeptrust

/-- `np.mean` of a flat list of reals (sum divided by length; the empty
list yields `0` under total real division). -/
noncomputable def npMean (l : List ℝ) : ℝ := l.sum / l.length

/-- `np.var` of a flat list: mean of squared deviations from the mean. -/
noncomputable def npVar (l : List ℝ) : ℝ :=
  npMean (l.map (fun x => (x - npMean l) ^ 2))

/-- Apply a scalar function elementwise to a 2-D grid. -/
def gridMap (f : ℝ → ℝ) (g : List (List ℝ)) : List (List ℝ) :=
  g.map (List.map f)

/-- Elementwise combination of two 2-D grids. -/
def gridZip (f : ℝ → ℝ → ℝ) (a b : List (List ℝ)) : List (List ℝ) :=
  List.zipWith (List.zipWith f) a b

/-- Flatten a 2-D grid to the list of all its entries. -/
def flat2 (g : List (List ℝ)) : List ℝ := g.flatten

lemma npMean_nonneg (l : List ℝ) (h : ∀ x ∈ l, 0 ≤ x) : 0 ≤ npMean l := by
  have hs : 0 ≤ l.sum := List.sum_nonneg h
  exact div_nonneg hs (Nat.cast_nonneg _)

lemma npMean_le_one (l : List ℝ) (h : ∀ x ∈ l, x ≤ 1) : npMean l ≤ 1 := by
  rcases eq_or_ne l [] with rfl | hne
  · simp [npMean]
  · have hlen : 0 < (l.length : ℝ) := by
      have := List.length_pos.mpr hne
      exact_mod_cast this
    have hs : l.sum ≤ (l.length : ℝ) := by
      have := List.sum_le_card_nsmul l 1 h
      simpa using this
    rw [npMean, div_le_one hlen]
    exact hs

lemma npVar_nonneg (l : List ℝ) : 0 ≤ npVar l := by
  apply npMean_nonneg
  intro x hx
  rcases List.mem_map.mp hx with ⟨y, _, rfl⟩
  positivity

lemma mem_flat2_gridMap {x : ℝ} {f : ℝ → ℝ} {g : List (List ℝ)}
    (hx : x ∈ flat2 (gridMap f g)) : ∃ y, x = f y := by
  rcases List.mem_flatten.mp hx with ⟨row, hrow, hxrow⟩
  rcases List.mem_map.mp hrow with ⟨r, _, rfl⟩
  rcases List.mem_map.mp hxrow with ⟨y, _, rfl⟩
  exact ⟨y, rfl⟩

lemma npMean_flat2_gridMap_abs_nonneg (g : List (List ℝ)) :
    0 ≤ npMean (flat2 (gridMap (fun x => |x|) g)) := by
  apply npMean_nonneg
  intro x hx
  rcases mem_flat2_gridMap hx with ⟨y, rfl⟩
  exact abs_nonneg y

/-- Weighted 0.6/0.4 combination of two unit-interval values stays in
the unit interval. -/
lemma combo_mem_unit {t e : ℝ} (ht0 : 0 ≤ t) (ht1 : t ≤ 1) (he0 : 0 ≤ e)
    (he1 : e ≤ 1) : 0 ≤ t * 0.6 + e * 0.4 ∧ t * 0.6 + e * 0.4 ≤ 1 := by
  constructor <;> nlinarith

/-- A numpy array as accepted by the analyzers' public interface: a 2-D
single-channel grid, a 3-channel RGB grid, or a 4-channel RGBA grid
(`len(image.shape) == 2`, `shape[-1] == 3`, `shape[-1] == 4`). -/
inductive NpImage where
  | gray : List (List ℝ) → NpImage
  | rgb : List (List (ℝ × ℝ × ℝ)) → NpImage
  | rgba : List (List (ℝ × ℝ × ℝ × ℝ)) → NpImage

/-- Discard the fourth (alpha) channel: `image[:, :, :3]`. -/
noncomputable def dropAlpha (a : List (List (ℝ × ℝ × ℝ × ℝ))) : List (List (ℝ × ℝ × ℝ)) :=
  a.map (List.map (fun p => (p.1, p.2.1, p.2.2.1)))

/-- `np.mean(preprocessed, axis=2)`: per-pixel average of the three
channels (the luminance reduction used by MesoNet and XceptionNet). -/
noncomputable def channelMean (g : List (List (ℝ × ℝ × ℝ))) : List (List ℝ) :=
  g.map (List.map (fun p => (p.1 + p.2.1 + p.2.2) / 3))

/-- Result dictionary returned by an analyzer's `predict`.  Keys that
are only sometimes present are `Option`-valued (`none` = key absent). -/
structure AnalyzerResult where
  score : ℝ
  is_fake : Bool
  confidence : ℝ
  fft_anomaly : Option ℝ := none
  dct_anomaly : Option ℝ := none
  symmetry_score : Option ℝ := none
  eye_anomaly : Option ℝ := none
  error : Option String := none

/-- The §3/§8 invariant on an analyzer result: score in the unit
interval, `is_fake == (score > 0.5)` and `confidence == |score-0.5|*2`. -/
def resultInvariant (r : AnalyzerResult) : Prop :=
  0 ≤ r.score ∧ r.score ≤ 1 ∧ (r.is_fake = true ↔ r.score > 0.5) ∧
    r.confidence = |r.score - 0.5| * 2

namespace MesoNet

/-- `MesoNet.preprocess` on an already-decoded numpy array: a 2-D grid
is stacked into three identical channels, an RGBA grid loses its alpha
channel, and all values are divided by 255.  (The PIL-image branch,
which resizes to 256×256 before producing the array, happens upstream
of this representation.) -/
noncomputable def preprocess : NpImage → List (List (ℝ × ℝ × ℝ))
  | NpImage.gray g => g.map (List.map (fun v => (v / 255, v / 255, v / 255)))
  | NpImage.rgb g => g.map (List.map (fun p => (p.1 / 255, p.2.1 / 255, p.2.2 / 255)))
  | NpImage.rgba g => g.map (List.map (fun p => (p.1 / 255, p.2.1 / 255, p.2.2.1 / 255)))

/-- `np.diff(gray, axis=0)`: difference of consecutive rows. -/
noncomputable def diffRows (g : List (List ℝ)) : List (List ℝ) :=
  List.zipWith (List.zipWith (fun a b => a - b)) g.tail g

/-- `np.diff(gray, axis=1)`: difference of consecutive entries in each
row. -/
noncomputable def diffCols (g : List (List ℝ)) : List (List ℝ) :=
  g.map (fun r => List.zipWith (fun a b => a - b) r.tail r)

/-- The body of `MesoNet.predict`'s `try` block: texture-variance and
edge-sharpness analysis producing the texture/edge score. -/
noncomputable def computeScore (img : NpImage) : ℝ :=
  let gray := channelMean (preprocess img)
  let variance := npVar (flat2 gray)
  let edge_strength :=
    npMean (flat2 (gridMap (fun x => |x|) (diffRows gray))) +
      npMean (flat2 (gridMap (fun x => |x|) (diffCols gray)))
  let texture_score := 1 - min (variance * 10) 1
  let edge_score := 1 - min (edge_strength * 5) 1
  texture_score * 0.6 + edge_score * 0.4

/-- The `try/except` structure of `MesoNet.predict`: a completed body
yields the score dictionary, a raised exception yields the neutral
fallback with the message in `error`. -/
noncomputable def predictRun : Except String ℝ → AnalyzerResult
  | Except.ok s => { score := s, is_fake := decide (s > 0.5), confidence := |s - 0.5| * 2 }
  | Except.error e => { score := 0.5, is_fake := false, confidence := 0, error := some e }

/-- `MesoNet.predict` on the exception-free path. -/
noncomputable def predict (img : NpImage) : AnalyzerResult :=
  predictRun (Except.ok (computeScore img))

lemma meso_computeScore_mem (img : NpImage) :
    0 ≤ computeScore img ∧ computeScore img ≤ 1 := by
  unfold computeScore
  have hv : 0 ≤ npVar (flat2 (channelMean (preprocess img))) := npVar_nonneg _
  have he : 0 ≤
      npMean (flat2 (gridMap (fun x => |x|) (diffRows (channelMean (preprocess img))))) +
        npMean (flat2 (gridMap (fun x => |x|) (diffCols (channelMean (preprocess img))))) :=
    add_nonneg (npMean_flat2_gridMap_abs_nonneg _) (npMean_flat2_gridMap_abs_nonneg _)
  apply combo_mem_unit
  · have : min (npVar (flat2 (channelMean (preprocess img))) * 10) 1 ≤ 1 := min_le_right _ _
    linarith
  · have : 0 ≤ min (npVar (flat2 (channelMean (preprocess img))) * 10) 1 :=
      le_min (by positivity) zero_le_one
    linarith
  · have : min ((npMean (flat2 (gridMap (fun x => |x|) (diffRows (channelMean (preprocess img))))) +
        npMean (flat2 (gridMap (fun x => |x|) (diffCols (channelMean (preprocess img)))))) * 5) 1 ≤ 1 :=
      min_le_right _ _
    linarith
  · have : 0 ≤ min ((npMean (flat2 (gridMap (fun x => |x|) (diffRows (channelMean (preprocess img))))) +
        npMean (flat2 (gridMap (fun x => |x|) (diffCols (channelMean (preprocess img)))))) * 5) 1 :=
      le_min (by positivity) zero_le_one
    linarith

lemma meso_predictRun_ok_invariant {s : ℝ} (h0 : 0 ≤ s) (h1 : s ≤ 1) :
    resultInvariant (predictRun (Except.ok s)) := by
  refine ⟨h0, h1, ?_, rfl⟩
  simp [predictRun]

lemma meso_predictRun_error_invariant (e : String) :
    resultInvariant (predictRun (Except.error e)) := by
  unfold resultInvariant predictRun
  refine ⟨by norm_num, by norm_num, by simp, by norm_num⟩

end MesoNet

namespace XceptionNet

/-- `XceptionNet.preprocess`, textually identical to MesoNet's except
for the upstream 299×299 resize of PIL inputs. -/
noncomputable def preprocess : NpImage → List (List (ℝ × ℝ × ℝ))
  | NpImage.gray g => g.map (List.map (fun v => (v / 255, v / 255, v / 255)))
  | NpImage.rgb g => g.map (List.map (fun p => (p.1 / 255, p.2.1 / 255, p.2.2 / 255)))
  | NpImage.rgba g => g.map (List.map (fun p => (p.1 / 255, p.2.1 / 255, p.2.2.1 / 255)))

/-- The body of `XceptionNet.predict`'s `try` block.  The skimage HOG
descriptor is an external library call and is therefore a parameter:
every property is proved for every possible feature vector it could
return. -/
noncomputable def computeScore (hog : List (List ℝ) → List ℝ) (img : NpImage) : ℝ :=
  let gray := channelMean (preprocess img)
  let features := hog gray
  let feature_variance := npVar features
  min (|feature_variance - 0.02| * 20) 1

/-- The `try/except` structure of `XceptionNet.predict`. -/
noncomputable def predictRun : Except String ℝ → AnalyzerResult
  | Except.ok s => { score := s, is_fake := decide (s > 0.5), confidence := |s - 0.5| * 2 }
  | Except.error e => { score := 0.5, is_fake := false, confidence := 0, error := some e }

/-- `XceptionNet.predict` on the exception-free path. -/
noncomputable def predict (hog : List (List ℝ) → List ℝ) (img : NpImage) : AnalyzerResult :=
  predictRun (Except.ok (computeScore hog img))

lemma xcep_computeScore_mem (hog : List (List ℝ) → List ℝ) (img : NpImage) :
    0 ≤ computeScore hog img ∧ computeScore hog img ≤ 1 := by
  unfold computeScore
  exact ⟨le_min (by positivity) zero_le_one, min_le_right _ _⟩

lemma xcep_predictRun_ok_invariant {s : ℝ} (h0 : 0 ≤ s) (h1 : s ≤ 1) :
    resultInvariant (predictRun (Except.ok s)) := by
  refine ⟨h0, h1, ?_, rfl⟩
  simp [predictRun]

lemma xcep_predictRun_error_invariant (e : String) :
    resultInvariant (predictRun (Except.error e)) := by
  unfold resultInvariant predictRun
  refine ⟨by norm_num, by norm_num, by simp, by norm_num⟩

end XceptionNet

/-- A detection rectangle `(x, y, w, h)` as returned by
`cv2.CascadeClassifier.detectMultiScale`. -/
structure Rect where
  x : ℕ
  y : ℕ
  w : ℕ
  h : ℕ

/-- The external OpenCV calls used by the biological analyzer, kept
abstract: `faces` models `face_cascade.detectMultiScale(gray, 1.3, 5)`,
`eyes` models `eye_cascade.detectMultiScale(gray, 1.1, 3)`, and
`resize` models `cv2.resize(img, (width, height))`. -/
structure CVOracle where
  faces : List (List ℝ) → List Rect
  eyes : List (List ℝ) → List Rect
  resize : List (List ℝ) → ℕ → ℕ → List (List ℝ)

/-- Numpy 2-D slice `g[y:y+h, x:x+w]`. -/
def crop (g : List (List ℝ)) (y h x w : ℕ) : List (List ℝ) :=
  ((g.drop y).take h).map (fun r => (r.drop x).take w)

/-- `shape[1]` of a 2-D grid (length of its first row). -/
def gwidth (g : List (List ℝ)) : ℕ := (g.headD []).length

lemma one_div_one_add_mem {x : ℝ} (hx : 0 ≤ x) :
    0 ≤ 1 / (1 + x) ∧ 1 / (1 + x) ≤ 1 := by
  constructor
  · positivity
  · rw [div_le_one (by linarith)]
    linarith

namespace BiologicalAnalyzer

/-- `BiologicalAnalyzer.detect_face_symmetry` on the grayscale grid:
`0.5` when no face is detected, otherwise the mirror-MSE symmetry score
of the first detected face. -/
noncomputable def detect_face_symmetry (o : CVOracle) (gray : List (List ℝ)) : ℝ :=
  match o.faces gray with
  | [] => 0.5
  | f :: _ =>
    let face := crop gray f.y f.h f.x f.w
    let mid := f.w / 2
    let left_half := face.map (List.take mid)
    let right_half := (face.map (List.drop mid)).map List.reverse
    let min_width := min (gwidth left_half) (gwidth right_half)
    let lh := o.resize left_half min_width face.length
    let rh := o.resize right_half min_width face.length
    let mse := npMean (flat2 (gridMap (fun d => d ^ 2) (gridZip (fun a b => a - b) lh rh)))
    1 / (1 + mse / 1000)

/-- `BiologicalAnalyzer.detect_eye_patterns` on the grayscale grid:
`0.5` when fewer than two eye regions are detected, otherwise the mean
per-region uniformity anomaly of the first two regions. -/
noncomputable def detect_eye_patterns (o : CVOracle) (gray : List (List ℝ)) : ℝ :=
  let eyes := o.eyes gray
  if eyes.length < 2 then 0.5
  else
    npMean ((eyes.take 2).map (fun e =>
      1 / (1 + npVar (flat2 (crop gray e.y e.h e.x e.w)) / 100)))

/-- The `try/except` structure of `BiologicalAnalyzer.predict`: a
completed body yields the pair (symmetry score, eye score) and the full
dictionary including the two diagnostic keys; a raised exception yields
the neutral fallback, which carries no diagnostic keys. -/
noncomputable def predictRun : Except String (ℝ × ℝ) → AnalyzerResult
  | Except.ok sp =>
    let combined := sp.1 * 0.6 + sp.2 * 0.4
    { score := combined, is_fake := decide (combined > 0.5),
      confidence := |combined - 0.5| * 2,
      symmetry_score := some sp.1, eye_anomaly := some sp.2 }
  | Except.error e => { score := 0.5, is_fake := false, confidence := 0, error := some e }

/-- `BiologicalAnalyzer.predict` on the exception-free path. -/
noncomputable def predict (o : CVOracle) (gray : List (List ℝ)) : AnalyzerResult :=
  predictRun (Except.ok (detect_face_symmetry o gray, detect_eye_patterns o gray))

lemma detect_face_symmetry_mem (o : CVOracle) (gray : List (List ℝ)) :
    0 ≤ detect_face_symmetry o gray ∧ detect_face_symmetry o gray ≤ 1 := by
  unfold detect_face_symmetry
  rcases hf : o.faces gray with _ | ⟨f, rest⟩
  · constructor <;> norm_num
  · dsimp only
    refine one_div_one_add_mem ?_
    refine div_nonneg ?_ (by norm_num)
    refine npMean_nonneg _ ?_
    intro z hz
    rcases mem_flat2_gridMap hz with ⟨y, rfl⟩
    positivity

lemma detect_eye_patterns_mem (o : CVOracle) (gray : List (List ℝ)) :
    0 ≤ detect_eye_patterns o gray ∧ detect_eye_patterns o gray ≤ 1 := by
  unfold detect_eye_patterns
  dsimp only
  split_ifs with hlen
  · constructor <;> norm_num
  · constructor
    · apply npMean_nonneg
      intro z hz
      rcases List.mem_map.mp hz with ⟨e, _, rfl⟩
      have := one_div_one_add_mem (x := npVar (flat2 (crop gray e.y e.h e.x e.w)) / 100)
        (by have := npVar_nonneg (flat2 (crop gray e.y e.h e.x e.w)); positivity)
      simpa using this.1
    · apply npMean_le_one
      intro z hz
      rcases List.mem_map.mp hz with ⟨e, _, rfl⟩
      have := one_div_one_add_mem (x := npVar (flat2 (crop gray e.y e.h e.x e.w)) / 100)
        (by have := npVar_nonneg (flat2 (crop gray e.y e.h e.x e.w)); positivity)
      simpa using this.2

lemma bio_predictRun_ok_invariant {s p : ℝ} (hs0 : 0 ≤ s) (hs1 : s ≤ 1)
    (hp0 : 0 ≤ p) (hp1 : p ≤ 1) :
    resultInvariant (predictRun (Except.ok (s, p))) := by
  obtain ⟨h0, h1⟩ := combo_mem_unit hs0 hs1 hp0 hp1
  refine ⟨h0, h1, ?_, rfl⟩
  simp [predictRun]

lemma bio_predictRun_error_invariant (e : String) :
    resultInvariant (predictRun (Except.error e)) := by
  unfold resultInvariant predictRun
  refine ⟨by norm_num, by norm_num, by simp, by norm_num⟩

end BiologicalAnalyzer

namespace FrequencyAnalyzer

/-- `np.fft.fft2` of an `H×W` luminance grid:
`F[u,v] = Σ_x Σ_y f[x,y] · exp(-2πi·(u·x/H + v·y/W))`. -/
noncomputable def fft2 (H W : ℕ) (f : Fin H → Fin W → ℝ) (u : Fin H) (v : Fin W) : ℂ :=
  ∑ x : Fin H, ∑ y : Fin W, (f x y : ℂ) *
    Complex.exp (-(2 * Real.pi * Complex.I) *
      (((u.1 * x.1 : ℕ) : ℂ) / (H : ℂ) + ((v.1 * y.1 : ℕ) : ℂ) / (W : ℂ)))

/-- `np.fft.fftshift` index map in one dimension: entry `i` of the
shifted array is entry `(i - H/2) mod H` of the original, so the
zero-frequency bin lands at index `H/2`. -/
def shiftIdx {H : ℕ} (u : Fin H) : Fin H :=
  ⟨(u.1 + H - H / 2) % H, Nat.mod_lt _ u.pos⟩

/-- `magnitude = np.abs(np.fft.fftshift(np.fft.fft2(image)))`. -/
noncomputable def magnitude (H W : ℕ) (f : Fin H → Fin W → ℝ) (u : Fin H) (v : Fin W) : ℝ :=
  Complex.abs (fft2 H W f (shiftIdx u) (shiftIdx v))

/-- The boolean high-frequency mask: `True` everywhere except the
central window, rows `int(h*0.4) ≤ u < int(h*0.6)` and likewise for
columns (exact-arithmetic model of the float index computation, which
agrees at the 256×256 working resolution). -/
def maskBit (H W : ℕ) (u : Fin H) (v : Fin W) : Bool :=
  !(decide (2 * H / 5 ≤ u.1) && decide (u.1 < 3 * H / 5) &&
    decide (2 * W / 5 ≤ v.1) && decide (v.1 < 3 * W / 5))

/-- The index set selected by the mask. -/
def maskSet (H W : ℕ) : Finset (Fin H × Fin W) :=
  Finset.univ.filter (fun p => maskBit H W p.1 p.2 = true)

/-- `high_freq_power = np.mean(magnitude[mask])`. -/
noncomputable def high_freq_power (H W : ℕ) (f : Fin H → Fin W → ℝ) : ℝ :=
  (∑ p in maskSet H W, magnitude H W f p.1 p.2) / (maskSet H W).card

/-- `total_power = np.mean(magnitude)`. -/
noncomputable def total_power (H W : ℕ) (f : Fin H → Fin W → ℝ) : ℝ :=
  (∑ p : Fin H × Fin W, magnitude H W f p.1 p.2) / (H * W)

/-- The `1e-10` guard added to ratio denominators. -/
noncomputable def eps : ℝ := 1 / 10 ^ 10

/-- `FrequencyAnalyzer.analyze_fft`:
`min(high_freq_power / (total_power + 1e-10) * 2, 1)`. -/
noncomputable def analyze_fft (H W : ℕ) (f : Fin H → Fin W → ℝ) : ℝ :=
  min (high_freq_power H W f / (total_power H W f + eps) * 2) 1

/-- Orthonormal DCT-II scaling factor in one dimension. -/
noncomputable def alpha (N k : ℕ) : ℝ :=
  if k = 0 then Real.sqrt (1 / N) else Real.sqrt (2 / N)

/-- The separable 2-D orthonormal DCT-II computed by
`fftpack.dct(fftpack.dct(image.T, norm='ortho').T, norm='ortho')`. -/
noncomputable def dct2 (H W : ℕ) (f : Fin H → Fin W → ℝ) (u : Fin H) (v : Fin W) : ℝ :=
  alpha H u.1 * alpha W v.1 *
    ∑ x : Fin H, ∑ y : Fin W, f x y *
      Real.cos (Real.pi * (2 * x.1 + 1) * u.1 / (2 * H)) *
      Real.cos (Real.pi * (2 * y.1 + 1) * v.1 / (2 * W))

/-- The bottom-right quadrant `abs_dct[h//2:, w//2:]` of the DCT
coefficient grid. -/
def blockSet (H W : ℕ) : Finset (Fin H × Fin W) :=
  Finset.univ.filter (fun p => H / 2 ≤ p.1.1 ∧ W / 2 ≤ p.2.1)

/-- `hf_mean = np.mean(np.abs(dct)[h//2:, w//2:])`. -/
noncomputable def hf_mean (H W : ℕ) (f : Fin H → Fin W → ℝ) : ℝ :=
  (∑ p in blockSet H W, |dct2 H W f p.1 p.2|) / (blockSet H W).card

/-- `hf_std = np.std(...)`: square root of the mean squared deviation. -/
noncomputable def hf_std (H W : ℕ) (f : Fin H → Fin W → ℝ) : ℝ :=
  Real.sqrt ((∑ p in blockSet H W, (|dct2 H W f p.1 p.2| - hf_mean H W f) ^ 2) /
    (blockSet H W).card)

/-- `FrequencyAnalyzer.analyze_dct`:
`min(std/(mean + 1e-10) / 10, 1)` on the high-frequency quadrant. -/
noncomputable def analyze_dct (H W : ℕ) (f : Fin H → Fin W → ℝ) : ℝ :=
  min (hf_std H W f / (hf_mean H W f + eps) / 10) 1

/-- The `try/except` structure of `FrequencyAnalyzer.predict`: a
completed body yields the combined score plus both anomaly diagnostics,
a raised exception yields the neutral fallback. -/
noncomputable def predictRun : Except String (ℝ × ℝ) → AnalyzerResult
  | Except.ok sp =>
    let combined := sp.1 * 0.6 + sp.2 * 0.4
    { score := combined, is_fake := decide (combined > 0.5),
      confidence := |combined - 0.5| * 2,
      fft_anomaly := some sp.1, dct_anomaly := some sp.2 }
  | Except.error e => { score := 0.5, is_fake := false, confidence := 0, error := some e }

/-- `FrequencyAnalyzer.predict` on the exception-free path, operating
on the luminance grid. -/
noncomputable def predict (H W : ℕ) (f : Fin H → Fin W → ℝ) : AnalyzerResult :=
  predictRun (Except.ok (analyze_fft H W f, analyze_dct H W f))

lemma sum_mul_factor {M : Type} [CommRing M] {H W : ℕ} (c : M) (A : Fin H → M)
    (B : Fin W → M) :
    (∑ x : Fin H, ∑ y : Fin W, c * A x * B y) =
      c * (∑ x : Fin H, A x) * (∑ y : Fin W, B y) := by
  simp only [Finset.mul_sum, Finset.sum_mul]
  exact Finset.sum_comm

/-- The geometric sum of the `N`-th roots of unity appearing in a
single row or column of the DFT vanishes at any nonzero frequency. -/
lemma expRowSum (N u : ℕ) (hu0 : 0 < u) (huN : u < N) :
    (∑ x : Fin N, Complex.exp (-(2 * Real.pi * Complex.I) *
      (((u * x.1 : ℕ) : ℂ) / (N : ℂ)))) = 0 := by
  have hN : (N : ℂ) ≠ 0 := Nat.cast_ne_zero.mpr (by omega)
  set ζ : ℂ := Complex.exp (-(2 * Real.pi * Complex.I) * ((u : ℂ) / (N : ℂ))) with hζ
  have hterm : ∀ x : Fin N,
      Complex.exp (-(2 * Real.pi * Complex.I) * (((u * x.1 : ℕ) : ℂ) / (N : ℂ))) = ζ ^ x.1 := by
    intro x
    rw [hζ, ← Complex.exp_nat_mul]
    congr 1
    push_cast
    ring
  have hζ1 : ζ ≠ 1 := by
    intro hone
    rw [hζ, Complex.exp_eq_one_iff] at hone
    obtain ⟨n, hn⟩ := hone
    have h2 : (2 * (Real.pi : ℂ) * Complex.I) ≠ 0 := by
      refine mul_ne_zero (mul_ne_zero two_ne_zero ?_) Complex.I_ne_zero
      exact_mod_cast Complex.ofReal_ne_zero.mpr Real.pi_ne_zero
    have hn' : (-(u : ℂ) / (N : ℂ)) = (n : ℂ) := by
      refine mul_right_cancel₀ h2 ?_
      rw [← hn]
      ring
    rw [div_eq_iff hN] at hn'
    have hz : -(u : ℤ) = n * N := by exact_mod_cast hn'
    have hu0' : (0 : ℤ) < u := by exact_mod_cast hu0
    have huN' : (u : ℤ) < N := by exact_mod_cast huN
    have hneg : n * (N : ℤ) < 0 := by linarith
    have hNpos : (0 : ℤ) < N := by linarith
    have hn1 : n ≤ -1 := by nlinarith
    nlinarith
  have hζN : ζ ^ N = 1 := by
    rw [hζ, ← Complex.exp_nat_mul]
    have harg : (N : ℂ) * (-(2 * Real.pi * Complex.I) * ((u : ℂ) / (N : ℂ))) =
        ((-(u : ℤ) : ℤ) : ℂ) * (2 * Real.pi * Complex.I) := by
      push_cast
      field_simp
      ring
    rw [harg, Complex.exp_int_mul_two_pi_mul_I]
  calc (∑ x : Fin N, Complex.exp (-(2 * Real.pi * Complex.I) *
        (((u * x.1 : ℕ) : ℂ) / (N : ℂ))))
      = ∑ x : Fin N, ζ ^ x.1 := Finset.sum_congr rfl fun x _ => hterm x
    _ = ∑ i in Finset.range N, ζ ^ i := Fin.sum_univ_eq_sum_range (fun i => ζ ^ i) N
    _ = (ζ ^ N - 1) / (ζ - 1) := geom_sum_eq hζ1 N
    _ = 0 := by rw [hζN]; simp

/-- The DFT of a constant grid factors into the constant times the two
one-dimensional root-of-unity sums. -/
lemma fft2_const (H W : ℕ) (c : ℝ) (u : Fin H) (v : Fin W) :
    fft2 H W (fun _ _ => c) u v =
      (c : ℂ) *
        (∑ x : Fin H, Complex.exp (-(2 * Real.pi * Complex.I) *
          (((u.1 * x.1 : ℕ) : ℂ) / (H : ℂ)))) *
        (∑ y : Fin W, Complex.exp (-(2 * Real.pi * Complex.I) *
          (((v.1 * y.1 : ℕ) : ℂ) / (W : ℂ)))) := by
  unfold fft2
  have hsplit : ∀ a b : ℂ, Complex.exp (-(2 * Real.pi * Complex.I) * (a + b)) =
      Complex.exp (-(2 * Real.pi * Complex.I) * a) *
        Complex.exp (-(2 * Real.pi * Complex.I) * b) := by
    intro a b
    rw [← Complex.exp_add]
    congr 1
    ring
  simp_rw [hsplit, ← mul_assoc]
  exact sum_mul_factor (c : ℂ) _ _

/-- One-dimensional DCT-II cosine row sum at a nonzero frequency
vanishes (telescoping product-to-sum identity). -/
lemma cosRowSum (N u : ℕ) (hu0 : 0 < u) (huN : u < N) :
    (∑ x in Finset.range N, Real.cos (Real.pi * (2 * (x : ℝ) + 1) * (u : ℝ) /
      (2 * (N : ℝ)))) = 0 := by
  have hN : 0 < N := lt_trans hu0 huN
  have hNr : (0 : ℝ) < (N : ℝ) := by exact_mod_cast hN
  set θ : ℝ := Real.pi * (u : ℝ) / (2 * (N : ℝ)) with hθ
  have hform : ∀ x : ℕ, Real.pi * (2 * (x : ℝ) + 1) * (u : ℝ) / (2 * (N : ℝ)) =
      (2 * (x : ℝ) + 1) * θ := by
    intro x
    rw [hθ]
    ring
  have hkey : ∀ x : ℕ, 2 * Real.sin θ * Real.cos ((2 * (x : ℝ) + 1) * θ) =
      Real.sin (2 * ((x : ℝ) + 1) * θ) - Real.sin (2 * (x : ℝ) * θ) := by
    intro x
    have h1 : 2 * ((x : ℝ) + 1) * θ = (2 * (x : ℝ) + 1) * θ + θ := by ring
    have h2 : 2 * (x : ℝ) * θ = (2 * (x : ℝ) + 1) * θ - θ := by ring
    rw [h1, h2, Real.sin_add, Real.sin_sub]
    ring
  have hts : (∑ x in Finset.range N,
      (Real.sin (2 * ((x : ℝ) + 1) * θ) - Real.sin (2 * (x : ℝ) * θ))) =
      Real.sin (2 * (N : ℝ) * θ) := by
    have h := Finset.sum_range_sub (fun i : ℕ => Real.sin (2 * (i : ℝ) * θ)) N
    push_cast at h
    simpa using h
  have hNθ : 2 * (N : ℝ) * θ = (u : ℝ) * Real.pi := by
    rw [hθ]
    field_simp
    ring
  have hmul : 2 * Real.sin θ *
      (∑ x in Finset.range N, Real.cos ((2 * (x : ℝ) + 1) * θ)) = 0 := by
    rw [Finset.mul_sum]
    calc (∑ x in Finset.range N, 2 * Real.sin θ * Real.cos ((2 * (x : ℝ) + 1) * θ))
        = ∑ x in Finset.range N,
            (Real.sin (2 * ((x : ℝ) + 1) * θ) - Real.sin (2 * (x : ℝ) * θ)) :=
          Finset.sum_congr rfl fun x _ => hkey x
      _ = Real.sin (2 * (N : ℝ) * θ) := hts
      _ = 0 := by rw [hNθ]; exact Real.sin_nat_mul_pi u
  have hθpos : 0 < θ := by
    rw [hθ]
    have hu : (0 : ℝ) < (u : ℝ) := by exact_mod_cast hu0
    positivity
  have hθlt : θ < Real.pi := by
    rw [hθ, div_lt_iff₀ (by positivity)]
    have hur : (u : ℝ) < 2 * (N : ℝ) := by
      have : u < 2 * N := by omega
      exact_mod_cast this
    nlinarith [Real.pi_pos]
  have hsin : 0 < Real.sin θ := Real.sin_pos_of_pos_of_lt_pi hθpos hθlt
  have h2s : 2 * Real.sin θ ≠ 0 := by positivity
  have hrw : (∑ x in Finset.range N, Real.cos (Real.pi * (2 * (x : ℝ) + 1) * (u : ℝ) /
      (2 * (N : ℝ)))) = ∑ x in Finset.range N, Real.cos ((2 * (x : ℝ) + 1) * θ) :=
    Finset.sum_congr rfl fun x _ => by rw [hform x]
  rw [hrw]
  exact (mul_eq_zero.mp hmul).resolve_left h2s

/-- The orthonormal 2-D DCT of a constant grid vanishes away from the
DC coefficient. -/
lemma dct2_const_eq_zero (H W : ℕ) (c : ℝ) (u : Fin H) (v : Fin W)
    (h : u.1 ≠ 0 ∨ v.1 ≠ 0) :
    dct2 H W (fun _ _ => c) u v = 0 := by
  unfold dct2
  have hfact : (∑ x : Fin H, ∑ y : Fin W,
      c * Real.cos (Real.pi * (2 * (x.1 : ℝ) + 1) * (u.1 : ℝ) / (2 * (H : ℝ))) *
        Real.cos (Real.pi * (2 * (y.1 : ℝ) + 1) * (v.1 : ℝ) / (2 * (W : ℝ)))) =
      c * (∑ x : Fin H, Real.cos (Real.pi * (2 * (x.1 : ℝ) + 1) * (u.1 : ℝ) / (2 * (H : ℝ)))) *
        (∑ y : Fin W, Real.cos (Real.pi * (2 * (y.1 : ℝ) + 1) * (v.1 : ℝ) / (2 * (W : ℝ)))) :=
    sum_mul_factor c _ _
  rcases h with h | h
  · have hz : (∑ x : Fin H,
        Real.cos (Real.pi * (2 * (x.1 : ℝ) + 1) * (u.1 : ℝ) / (2 * (H : ℝ)))) = 0 := by
      rw [Fin.sum_univ_eq_sum_range
        (fun i : ℕ => Real.cos (Real.pi * (2 * (i : ℝ) + 1) * (u.1 : ℝ) / (2 * (H : ℝ)))) H]
      exact cosRowSum H u.1 (Nat.pos_of_ne_zero h) u.isLt
    rw [hfact, hz]
    ring
  · have hz : (∑ y : Fin W,
        Real.cos (Real.pi * (2 * (y.1 : ℝ) + 1) * (v.1 : ℝ) / (2 * (W : ℝ)))) = 0 := by
      rw [Fin.sum_univ_eq_sum_range
        (fun i : ℕ => Real.cos (Real.pi * (2 * (i : ℝ) + 1) * (v.1 : ℝ) / (2 * (W : ℝ)))) W]
      exact cosRowSum W v.1 (Nat.pos_of_ne_zero h) v.isLt
    rw [hfact, hz]
    ring

lemma eps_pos : 0 < eps := by norm_num [eps]

/-- On a 256×256 grid, the shifted index of any row other than 128
maps back to a nonzero pre-shift frequency. -/
lemma shiftIdx_ne_zero_256 {u : Fin 256} (hu : u.1 ≠ 128) : (shiftIdx u).1 ≠ 0 := by
  have h := u.isLt
  show (u.1 + 256 - 256 / 2) % 256 ≠ 0
  omega

/-- A mask-selected (high-frequency) cell of the 256×256 spectrum is
not the centred zero-frequency bin. -/
lemma maskBit_imp {u v : Fin 256} (h : maskBit 256 256 u v = true) :
    u.1 ≠ 128 ∨ v.1 ≠ 128 := by
  by_contra hc
  push_neg at hc
  obtain ⟨hu, hv⟩ := hc
  simp [maskBit, hu, hv] at h

/-- The shifted magnitude spectrum of a constant 256×256 image
vanishes away from the centre bin. -/
lemma magnitude_const_eq_zero (c : ℝ) (u v : Fin 256)
    (h : u.1 ≠ 128 ∨ v.1 ≠ 128) :
    magnitude 256 256 (fun _ _ => c) u v = 0 := by
  unfold magnitude
  rw [fft2_const]
  rcases h with h | h
  · rw [expRowSum 256 (shiftIdx u).1 (Nat.pos_of_ne_zero (shiftIdx_ne_zero_256 h))
      (shiftIdx u).isLt]
    simp
  · rw [expRowSum 256 (shiftIdx v).1 (Nat.pos_of_ne_zero (shiftIdx_ne_zero_256 h))
      (shiftIdx v).isLt]
    simp

lemma high_freq_power_const (c : ℝ) :
    high_freq_power 256 256 (fun _ _ => c) = 0 := by
  unfold high_freq_power
  have hz : (∑ p in maskSet 256 256, magnitude 256 256 (fun _ _ => c) p.1 p.2) = 0 := by
    refine Finset.sum_eq_zero fun p hp => ?_
    rw [maskSet, Finset.mem_filter] at hp
    exact magnitude_const_eq_zero c p.1 p.2 (maskBit_imp hp.2)
  rw [hz, zero_div]

lemma analyze_fft_const (c : ℝ) : analyze_fft 256 256 (fun _ _ => c) = 0 := by
  unfold analyze_fft
  rw [high_freq_power_const, zero_div, zero_mul]
  exact min_eq_left zero_le_one

/-- Every entry of the bottom-right DCT quadrant of a constant 256×256
image is zero. -/
lemma dct2_const_block_zero (c : ℝ) {p : Fin 256 × Fin 256}
    (hp : p ∈ blockSet 256 256) :
    dct2 256 256 (fun _ _ => c) p.1 p.2 = 0 := by
  rw [blockSet, Finset.mem_filter] at hp
  refine dct2_const_eq_zero 256 256 c p.1 p.2 (Or.inl ?_)
  have := hp.2.1
  omega

lemma blockSum_const (c : ℝ) :
    (∑ p in blockSet 256 256, |dct2 256 256 (fun _ _ => c) p.1 p.2|) = 0 := by
  refine Finset.sum_eq_zero fun p hp => ?_
  rw [dct2_const_block_zero c hp, abs_zero]

lemma hf_mean_const (c : ℝ) : hf_mean 256 256 (fun _ _ => c) = 0 := by
  unfold hf_mean
  rw [blockSum_const, zero_div]

lemma hf_std_const (c : ℝ) : hf_std 256 256 (fun _ _ => c) = 0 := by
  unfold hf_std
  have hz : (∑ p in blockSet 256 256,
      (|dct2 256 256 (fun _ _ => c) p.1 p.2| - hf_mean 256 256 (fun _ _ => c)) ^ 2) = 0 := by
    refine Finset.sum_eq_zero fun p hp => ?_
    rw [dct2_const_block_zero c hp, hf_mean_const, abs_zero, sub_zero]
    norm_num
  rw [hz, zero_div, Real.sqrt_zero]

lemma analyze_dct_const (c : ℝ) : analyze_dct 256 256 (fun _ _ => c) = 0 := by
  unfold analyze_dct
  rw [hf_std_const, zero_div, zero_div]
  exact min_eq_left zero_le_one

lemma high_freq_power_nonneg (H W : ℕ) (f : Fin H → Fin W → ℝ) :
    0 ≤ high_freq_power H W f := by
  refine div_nonneg (Finset.sum_nonneg fun p _ => Complex.abs.nonneg _) (Nat.cast_nonneg _)

lemma total_power_nonneg (H W : ℕ) (f : Fin H → Fin W → ℝ) :
    0 ≤ total_power H W f := by
  refine div_nonneg (Finset.sum_nonneg fun p _ => Complex.abs.nonneg _) ?_
  positivity

lemma analyze_fft_mem (H W : ℕ) (f : Fin H → Fin W → ℝ) :
    0 ≤ analyze_fft H W f ∧ analyze_fft H W f ≤ 1 := by
  refine ⟨le_min ?_ zero_le_one, min_le_right _ _⟩
  have h1 := high_freq_power_nonneg H W f
  have h2 := total_power_nonneg H W f
  have h3 := eps_pos
  have hd : 0 ≤ total_power H W f + eps := by linarith
  have := div_nonneg h1 hd
  linarith

lemma hf_mean_nonneg (H W : ℕ) (f : Fin H → Fin W → ℝ) : 0 ≤ hf_mean H W f := by
  refine div_nonneg (Finset.sum_nonneg fun p _ => abs_nonneg _) (Nat.cast_nonneg _)

lemma analyze_dct_mem (H W : ℕ) (f : Fin H → Fin W → ℝ) :
    0 ≤ analyze_dct H W f ∧ analyze_dct H W f ≤ 1 := by
  refine ⟨le_min ?_ zero_le_one, min_le_right _ _⟩
  have h1 : 0 ≤ hf_std H W f := Real.sqrt_nonneg _
  have h2 := hf_mean_nonneg H W f
  have h3 := eps_pos
  have hd : 0 ≤ hf_mean H W f + eps := by linarith
  have := div_nonneg (div_nonneg h1 hd) (by norm_num : (0:ℝ) ≤ 10)
  linarith

lemma freq_predictRun_ok_invariant {s p : ℝ} (hs0 : 0 ≤ s) (hs1 : s ≤ 1)
    (hp0 : 0 ≤ p) (hp1 : p ≤ 1) :
    resultInvariant (predictRun (Except.ok (s, p))) := by
  obtain ⟨h0, h1⟩ := combo_mem_unit hs0 hs1 hp0 hp1
  refine ⟨h0, h1, ?_, rfl⟩
  simp [predictRun]

lemma freq_predictRun_error_invariant (e : String) :
    resultInvariant (predictRun (Except.error e)) := by
  unfold resultInvariant predictRun
  refine ⟨by norm_num, by norm_num, by simp, by norm_num⟩

end FrequencyAnalyzer

namespace EnsembleDetector

/-- The fixed model weights from `EnsembleDetector.__init__`:
mesonet 0.30, xception 0.35, frequency 0.20, biological 0.15. -/
noncomputable def weights : ℝ × ℝ × ℝ × ℝ := (0.30, 0.35, 0.20, 0.15)

/-- The `voting` sub-dictionary of an ensemble result. -/
structure Voting where
  fake_votes : ℕ
  real_votes : ℕ
  individual_votes : Bool × Bool × Bool × Bool

/-- The dictionary returned by `EnsembleDetector.predict`.  Keys absent
on a given path are `none`. -/
structure EnsembleResult where
  is_deepfake : Bool
  confidence_score : ℝ
  ensemble_score : ℝ
  model_scores : Option (ℝ × ℝ × ℝ × ℝ)
  voting : Option Voting
  ensemble_weights : Option (ℝ × ℝ × ℝ × ℝ)
  model_details : Option (AnalyzerResult × AnalyzerResult × AnalyzerResult × AnalyzerResult)
  error : Option String

/-- `EnsembleDetector.predict`.  The `try` body runs the four analyzer
predictions (in the order mesonet, xception, frequency, biological) and
assembles the full result; the model's `Except` argument carries either
those four analyzer results or the exception raised inside the body. -/
noncomputable def predict :
    Except String (AnalyzerResult × AnalyzerResult × AnalyzerResult × AnalyzerResult) →
      EnsembleResult
  | Except.ok (m, x, f, b) =>
    let ensemble_score := m.score * weights.1 + x.score * weights.2.1 +
      f.score * weights.2.2.1 + b.score * weights.2.2.2
    let votes_fake := (cond m.is_fake 1 0) + (cond x.is_fake 1 0) +
      (cond f.is_fake 1 0) + (cond b.is_fake 1 0)
    { is_deepfake := decide (ensemble_score > 0.5)
      confidence_score := |ensemble_score - 0.5| * 2
      ensemble_score := ensemble_score
      model_scores := some (m.score, x.score, f.score, b.score)
      voting := some { fake_votes := votes_fake, real_votes := 4 - votes_fake,
                       individual_votes := (m.is_fake, x.is_fake, f.is_fake, b.is_fake) }
      ensemble_weights := some weights
      model_details := some (m, x, f, b)
      error := none }
  | Except.error e =>
    { is_deepfake := false, confidence_score := 0, ensemble_score := 0.5,
      model_scores := none, voting := none, ensemble_weights := none,
      model_details := none, error := some e }

lemma ensemble_score_ok (m x f b : AnalyzerResult) :
    (predict (Except.ok (m, x, f, b))).ensemble_score =
      m.score * weights.1 + x.score * weights.2.1 +
        f.score * weights.2.2.1 + b.score * weights.2.2.2 := rfl

lemma is_deepfake_ok (m x f b : AnalyzerResult) :
    (predict (Except.ok (m, x, f, b))).is_deepfake =
      decide ((predict (Except.ok (m, x, f, b))).ensemble_score > 0.5) := rfl

lemma confidence_score_ok (m x f b : AnalyzerResult) :
    (predict (Except.ok (m, x, f, b))).confidence_score =
      |(predict (Except.ok (m, x, f, b))).ensemble_score - 0.5| * 2 := rfl

lemma voting_ok (m x f b : AnalyzerResult) :
    (predict (Except.ok (m, x, f, b))).voting = some
      { fake_votes := (cond m.is_fake 1 0) + (cond x.is_fake 1 0) +
          (cond f.is_fake 1 0) + (cond b.is_fake 1 0),
        real_votes := 4 - ((cond m.is_fake 1 0) + (cond x.is_fake 1 0) +
          (cond f.is_fake 1 0) + (cond b.is_fake 1 0)),
        individual_votes := (m.is_fake, x.is_fake, f.is_fake, b.is_fake) } := rfl

end EnsembleDetector

/-- Summing four booleans as 0/1 integers agrees with counting the
`true` entries of the four-element list. -/
lemma condSum_eq_count (a b c d : Bool) :
    (cond a 1 0) + (cond b 1 0) + (cond c 1 0) + (cond d 1 0) =
      [a, b, c, d].count true := by
  cases a <;> cases b <;> cases c <;> cases d <;> rfl

/-- A concrete oracle whose detectors find no faces and no eyes. -/
noncomputable def emptyOracle : CVOracle :=
  { faces := fun _ => [], eyes := fun _ => [], resize := fun g _ _ => g }

/-- C1: whenever the Ensemble Combiner's predict succeeds (the `ok`
branch of its `try`), the returned result has
`ensemble_score = 0.30*mesonet + 0.35*xception + 0.20*frequency +
0.15*biological`, the four weights sum to 1, `is_deepfake` holds
exactly when `ensemble_score > 0.5`, and
`confidence_score = |ensemble_score - 0.5| * 2`. -/
theorem c1_ensemble_weighted_score (m x f b : AnalyzerResult) :
    (EnsembleDetector.predict (Except.ok (m, x, f, b))).ensemble_score =
        0.30 * m.score + 0.35 * x.score + 0.20 * f.score + 0.15 * b.score ∧
      EnsembleDetector.weights.1 + EnsembleDetector.weights.2.1 +
        EnsembleDetector.weights.2.2.1 + EnsembleDetector.weights.2.2.2 = 1 ∧
      ((EnsembleDetector.predict (Except.ok (m, x, f, b))).is_deepfake = true ↔
        (EnsembleDetector.predict (Except.ok (m, x, f, b))).ensemble_score > 0.5) ∧
      (EnsembleDetector.predict (Except.ok (m, x, f, b))).confidence_score =
        |(EnsembleDetector.predict (Except.ok (m, x, f, b))).ensemble_score - 0.5| * 2 := by
  refine ⟨?_, ?_, ?_, EnsembleDetector.confidence_score_ok m x f b⟩
  · rw [EnsembleDetector.ensemble_score_ok]
    simp only [EnsembleDetector.weights]
    ring
  · simp only [EnsembleDetector.weights]
    norm_num
  · rw [EnsembleDetector.is_deepfake_ok]
    exact decide_eq_true_iff

/-- C2: each of the four analyzers returns, on the computed path for
every input (and every behaviour of the external HOG descriptor and
OpenCV detectors) as well as on the neutral-fallback path, a result
with `score ∈ [0,1]`, `is_fake == (score > 0.5)` and
`confidence == |score - 0.5| * 2` exactly. -/
theorem c2_analyzer_result_invariants :
    (∀ img : NpImage, resultInvariant (MesoNet.predict img)) ∧
      (∀ e : String, resultInvariant (MesoNet.predictRun (Except.error e))) ∧
      (∀ (hog : List (List ℝ) → List ℝ) (img : NpImage),
        resultInvariant (XceptionNet.predict hog img)) ∧
      (∀ e : String, resultInvariant (XceptionNet.predictRun (Except.error e))) ∧
      (∀ (H W : ℕ) (f : Fin H → Fin W → ℝ),
        resultInvariant (FrequencyAnalyzer.predict H W f)) ∧
      (∀ e : String, resultInvariant (FrequencyAnalyzer.predictRun (Except.error e))) ∧
      (∀ (o : CVOracle) (g : List (List ℝ)),
        resultInvariant (BiologicalAnalyzer.predict o g)) ∧
      (∀ e : String, resultInvariant (BiologicalAnalyzer.predictRun (Except.error e))) := by
  refine ⟨?_, MesoNet.meso_predictRun_error_invariant, ?_,
    XceptionNet.xcep_predictRun_error_invariant, ?_,
    FrequencyAnalyzer.freq_predictRun_error_invariant, ?_,
    BiologicalAnalyzer.bio_predictRun_error_invariant⟩
  · intro img
    obtain ⟨h0, h1⟩ := MesoNet.meso_computeScore_mem img
    exact MesoNet.meso_predictRun_ok_invariant h0 h1
  · intro hog img
    obtain ⟨h0, h1⟩ := XceptionNet.xcep_computeScore_mem hog img
    exact XceptionNet.xcep_predictRun_ok_invariant h0 h1
  · intro H W f
    obtain ⟨h0, h1⟩ := FrequencyAnalyzer.analyze_fft_mem H W f
    obtain ⟨h2, h3⟩ := FrequencyAnalyzer.analyze_dct_mem H W f
    exact FrequencyAnalyzer.freq_predictRun_ok_invariant h0 h1 h2 h3
  · intro o g
    obtain ⟨h0, h1⟩ := BiologicalAnalyzer.detect_face_symmetry_mem o g
    obtain ⟨h2, h3⟩ := BiologicalAnalyzer.detect_eye_patterns_mem o g
    exact BiologicalAnalyzer.bio_predictRun_ok_invariant h0 h1 h2 h3

/-- C3: for each of the four analyzers, the completed (`ok`) branch of
`predict` carries no `error` key, and the exception branch returns
exactly the neutral fallback `{score: 0.5, is_fake: false,
confidence: 0, error: <message>}` (with no other keys).  Since these
two branches are exhaustive, the `error` key is present only in the
fallback case, and there the score equals 0.5; totality of the model
functions is the "never raises outward" guarantee. -/
theorem c3_analyzer_error_containment :
    (∀ s : ℝ, (MesoNet.predictRun (Except.ok s)).error = none) ∧
      (∀ e : String, MesoNet.predictRun (Except.error e) =
        { score := 0.5, is_fake := false, confidence := 0, error := some e }) ∧
      (∀ s : ℝ, (XceptionNet.predictRun (Except.ok s)).error = none) ∧
      (∀ e : String, XceptionNet.predictRun (Except.error e) =
        { score := 0.5, is_fake := false, confidence := 0, error := some e }) ∧
      (∀ sp : ℝ × ℝ, (FrequencyAnalyzer.predictRun (Except.ok sp)).error = none) ∧
      (∀ e : String, FrequencyAnalyzer.predictRun (Except.error e) =
        { score := 0.5, is_fake := false, confidence := 0, error := some e }) ∧
      (∀ sp : ℝ × ℝ, (BiologicalAnalyzer.predictRun (Except.ok sp)).error = none) ∧
      (∀ e : String, BiologicalAnalyzer.predictRun (Except.error e) =
        { score := 0.5, is_fake := false, confidence := 0, error := some e }) :=
  ⟨fun _ => rfl, fun _ => rfl, fun _ => rfl, fun _ => rfl,
    fun _ => rfl, fun _ => rfl, fun _ => rfl, fun _ => rfl⟩

/-- C4: when any internal failure occurs during the ensemble
computation (the exception branch of its `try`), the Ensemble
Combiner returns `is_deepfake = false`, `confidence_score = 0`,
`ensemble_score = 0.5`, with the `error` field populated; totality of
the model function is the "never propagates" guarantee. -/
theorem c4_ensemble_error_containment (e : String) :
    (EnsembleDetector.predict (Except.error e)).is_deepfake = false ∧
      (EnsembleDetector.predict (Except.error e)).confidence_score = 0 ∧
      (EnsembleDetector.predict (Except.error e)).ensemble_score = 0.5 ∧
      (EnsembleDetector.predict (Except.error e)).error = some e :=
  ⟨rfl, rfl, rfl, rfl⟩

/-- C5: when the face detector reports zero faces the biological
symmetry score is 0.5; when the eye detector reports fewer than two
regions the eye score is 0.5; and with neither a face nor two eyes,
`predict` returns exactly `score = 0.5` (namely `0.5*0.6 + 0.5*0.4`),
`is_fake = false`, `confidence = 0`, with no error set. -/
theorem c5_biological_neutral_fallbacks (o : CVOracle) (g : List (List ℝ)) :
    (o.faces g = [] → BiologicalAnalyzer.detect_face_symmetry o g = 0.5) ∧
      ((o.eyes g).length < 2 → BiologicalAnalyzer.detect_eye_patterns o g = 0.5) ∧
      (o.faces g = [] → (o.eyes g).length < 2 →
        (BiologicalAnalyzer.predict o g).score = 0.5 * 0.6 + 0.5 * 0.4 ∧
          (BiologicalAnalyzer.predict o g).score = 0.5 ∧
          (BiologicalAnalyzer.predict o g).is_fake = false ∧
          (BiologicalAnalyzer.predict o g).confidence = 0 ∧
          (BiologicalAnalyzer.predict o g).error = none) := by
  have hface : o.faces g = [] → BiologicalAnalyzer.detect_face_symmetry o g = 0.5 := by
    intro h
    simp [BiologicalAnalyzer.detect_face_symmetry, h]
  have heye : (o.eyes g).length < 2 → BiologicalAnalyzer.detect_eye_patterns o g = 0.5 := by
    intro h
    simp [BiologicalAnalyzer.detect_eye_patterns, h]
  refine ⟨hface, heye, ?_⟩
  intro hf he
  have h1 := hface hf
  have h2 := heye he
  have hs : (BiologicalAnalyzer.predict o g).score =
      BiologicalAnalyzer.detect_face_symmetry o g * 0.6 +
        BiologicalAnalyzer.detect_eye_patterns o g * 0.4 := rfl
  refine ⟨?_, ?_, ?_, ?_, rfl⟩
  · rw [hs, h1, h2]
  · rw [hs, h1, h2]
    norm_num
  · have hb : (BiologicalAnalyzer.predict o g).is_fake =
        decide (BiologicalAnalyzer.detect_face_symmetry o g * 0.6 +
          BiologicalAnalyzer.detect_eye_patterns o g * 0.4 > 0.5) := rfl
    rw [hb, h1, h2, decide_eq_false_iff_not]
    norm_num
  · have hc : (BiologicalAnalyzer.predict o g).confidence =
        |BiologicalAnalyzer.detect_face_symmetry o g * 0.6 +
          BiologicalAnalyzer.detect_eye_patterns o g * 0.4 - 0.5| * 2 := rfl
    rw [hc, h1, h2]
    norm_num

/-- C5 witness: the neutral-fallback behaviour at the concrete oracle
that detects nothing, on the concrete one-pixel image. -/
theorem c5_biological_neutral_fallbacks_witness :
    BiologicalAnalyzer.detect_face_symmetry emptyOracle [[1]] = 0.5 ∧
      BiologicalAnalyzer.detect_eye_patterns emptyOracle [[1]] = 0.5 ∧
      (BiologicalAnalyzer.predict emptyOracle [[1]]).score = 0.5 ∧
      (BiologicalAnalyzer.predict emptyOracle [[1]]).is_fake = false ∧
      (BiologicalAnalyzer.predict emptyOracle [[1]]).confidence = 0 := by
  obtain ⟨hface, heye, hcomb⟩ := c5_biological_neutral_fallbacks emptyOracle [[1]]
  have hf : emptyOracle.faces [[1]] = [] := rfl
  have he : (emptyOracle.eyes [[1]]).length < 2 := by
    show ([] : List Rect).length < 2
    decide
  obtain ⟨_, hs, hif, hc, _⟩ := hcomb hf he
  exact ⟨hface hf, heye he, hs, hif, hc⟩

/-- C6: in every successful ensemble result, `fake_votes` counts the
analyzers with `is_fake = true`, `real_votes = 4 - fake_votes` (so the
two sum to 4), `individual_votes` records the four analyzers' flags,
and the verdict `is_deepfake` is a function of `ensemble_score` alone:
changing the four vote flags arbitrarily leaves it unchanged. -/
theorem c6_voting_breakdown (m x f b : AnalyzerResult) (v1 v2 v3 v4 : Bool) :
    (EnsembleDetector.predict (Except.ok (m, x, f, b))).voting = some
        { fake_votes := [m.is_fake, x.is_fake, f.is_fake, b.is_fake].count true,
          real_votes := 4 - [m.is_fake, x.is_fake, f.is_fake, b.is_fake].count true,
          individual_votes := (m.is_fake, x.is_fake, f.is_fake, b.is_fake) } ∧
      [m.is_fake, x.is_fake, f.is_fake, b.is_fake].count true +
        (4 - [m.is_fake, x.is_fake, f.is_fake, b.is_fake].count true) = 4 ∧
      (EnsembleDetector.predict (Except.ok (m, x, f, b))).is_deepfake =
        decide ((EnsembleDetector.predict (Except.ok (m, x, f, b))).ensemble_score > 0.5) ∧
      (EnsembleDetector.predict (Except.ok
          ({ m with is_fake := v1 }, { x with is_fake := v2 },
            { f with is_fake := v3 }, { b with is_fake := v4 }))).is_deepfake =
        (EnsembleDetector.predict (Except.ok (m, x, f, b))).is_deepfake := by
  refine ⟨?_, ?_, EnsembleDetector.is_deepfake_ok m x f b, rfl⟩
  · rw [EnsembleDetector.voting_ok, condSum_eq_count]
  · have h := List.count_le_length true [m.is_fake, x.is_fake, f.is_fake, b.is_fake]
    simp only [List.length_cons, List.length_nil] at h
    omega

/-- C7: for a constant-valued 256×256 image, the mask-selected
high-frequency power is exactly 0 and so is `fft_anomaly` (the shifted
zero-frequency bin at (128,128) lies inside the mask-excluded central
window), the bottom-right DCT quadrant is identically zero and
`dct_anomaly = 0`, hence `predict` returns combined score 0 with
`is_fake = false`. -/
theorem c7_uniform_image_frequency (c : ℝ) :
    FrequencyAnalyzer.high_freq_power 256 256 (fun _ _ => c) = 0 ∧
      FrequencyAnalyzer.analyze_fft 256 256 (fun _ _ => c) = 0 ∧
      FrequencyAnalyzer.maskBit 256 256 (128 : Fin 256) (128 : Fin 256) = false ∧
      (∑ p in FrequencyAnalyzer.blockSet 256 256,
        |FrequencyAnalyzer.dct2 256 256 (fun _ _ => c) p.1 p.2|) = 0 ∧
      FrequencyAnalyzer.analyze_dct 256 256 (fun _ _ => c) = 0 ∧
      (FrequencyAnalyzer.predict 256 256 (fun _ _ => c)).score = 0 ∧
      (FrequencyAnalyzer.predict 256 256 (fun _ _ => c)).is_fake = false := by
  refine ⟨FrequencyAnalyzer.high_freq_power_const c,
    FrequencyAnalyzer.analyze_fft_const c, by rfl,
    FrequencyAnalyzer.blockSum_const c, FrequencyAnalyzer.analyze_dct_const c, ?_, ?_⟩
  · have hs : (FrequencyAnalyzer.predict 256 256 (fun _ _ => c)).score =
        FrequencyAnalyzer.analyze_fft 256 256 (fun _ _ => c) * 0.6 +
          FrequencyAnalyzer.analyze_dct 256 256 (fun _ _ => c) * 0.4 := rfl
    rw [hs, FrequencyAnalyzer.analyze_fft_const, FrequencyAnalyzer.analyze_dct_const]
    norm_num
  · have hb : (FrequencyAnalyzer.predict 256 256 (fun _ _ => c)).is_fake =
        decide (FrequencyAnalyzer.analyze_fft 256 256 (fun _ _ => c) * 0.6 +
          FrequencyAnalyzer.analyze_dct 256 256 (fun _ _ => c) * 0.4 > 0.5) := rfl
    rw [hb, FrequencyAnalyzer.analyze_fft_const, FrequencyAnalyzer.analyze_dct_const,
      decide_eq_false_iff_not]
    norm_num

/-- C8 counterexample: on the exception-fallback path the biological
analyzer's result dictionary does not contain the diagnostic keys
`symmetry_score` and `eye_anomaly` (both absent), contradicting the
claim that they are included on every path. -/
theorem c8_biological_diagnostics_counterexample :
    (BiologicalAnalyzer.predictRun (Except.error "boom")).symmetry_score = none ∧
      (BiologicalAnalyzer.predictRun (Except.error "boom")).eye_anomaly = none :=
  ⟨rfl, rfl⟩

/-- C8 (amended): the biological analyzer's result includes the
diagnostic fields `symmetry_score` and `eye_anomaly` on every
successful path (with the computed values); the exception-fallback
path omits both. -/
theorem c8_biological_diagnostics (o : CVOracle) (g : List (List ℝ)) (sp : ℝ × ℝ)
    (e : String) :
    (BiologicalAnalyzer.predict o g).symmetry_score =
        some (BiologicalAnalyzer.detect_face_symmetry o g) ∧
      (BiologicalAnalyzer.predict o g).eye_anomaly =
        some (BiologicalAnalyzer.detect_eye_patterns o g) ∧
      (BiologicalAnalyzer.predictRun (Except.ok sp)).symmetry_score = some sp.1 ∧
      (BiologicalAnalyzer.predictRun (Except.ok sp)).eye_anomaly = some sp.2 ∧
      (BiologicalAnalyzer.predictRun (Except.error e)).symmetry_score = none ∧
      (BiologicalAnalyzer.predictRun (Except.error e)).eye_anomaly = none :=
  ⟨rfl, rfl, rfl, rfl, rfl, rfl⟩

/-- C9 counterexample: on the internal-failure path the ensemble
result contains none of `model_scores`, `voting`, `ensemble_weights`,
`model_details`, contradicting the claim that the full §3 field set is
present on that path too. -/
theorem c9_ensemble_fields_counterexample :
    (EnsembleDetector.predict (Except.error "analyzer contract violation")).model_scores
        = none ∧
      (EnsembleDetector.predict (Except.error "analyzer contract violation")).voting = none ∧
      (EnsembleDetector.predict
        (Except.error "analyzer contract violation")).ensemble_weights = none ∧
      (EnsembleDetector.predict
        (Except.error "analyzer contract violation")).model_details = none :=
  ⟨rfl, rfl, rfl, rfl⟩

/-- C9 (amended): the successful path returns exactly the §3 field
set, with `error` absent; the internal-failure path returns only
`is_deepfake`, `confidence_score`, `ensemble_score` and `error`, the
remaining keys being absent. -/
theorem c9_ensemble_fields (m x f b : AnalyzerResult) (e : String) :
    (EnsembleDetector.predict (Except.ok (m, x, f, b))).model_scores =
        some (m.score, x.score, f.score, b.score) ∧
      (EnsembleDetector.predict (Except.ok (m, x, f, b))).voting.isSome = true ∧
      (EnsembleDetector.predict (Except.ok (m, x, f, b))).ensemble_weights =
        some EnsembleDetector.weights ∧
      (EnsembleDetector.predict (Except.ok (m, x, f, b))).model_details =
        some (m, x, f, b) ∧
      (EnsembleDetector.predict (Except.ok (m, x, f, b))).error = none ∧
      EnsembleDetector.predict (Except.error e) =
        { is_deepfake := false, confidence_score := 0, ensemble_score := 0.5,
          model_scores := none, voting := none, ensemble_weights := none,
          model_details := none, error := some e } :=
  ⟨rfl, rfl, rfl, rfl, rfl, rfl⟩

/-- C10: the Texture/Edge and Feature-Distribution preprocessors
accept non-RGB grids: a 2-D grid is expanded to three identical
channels, so the derived luminance equals the normalized input grid,
and an RGBA grid preprocesses identically to the same grid with its
alpha channel dropped. -/
theorem c10_preprocess_channels (g : List (List ℝ))
    (a : List (List (ℝ × ℝ × ℝ × ℝ))) :
    channelMean (MesoNet.preprocess (NpImage.gray g)) =
        g.map (List.map (fun v => v / 255)) ∧
      MesoNet.preprocess (NpImage.rgba a) =
        MesoNet.preprocess (NpImage.rgb (dropAlpha a)) ∧
      channelMean (XceptionNet.preprocess (NpImage.gray g)) =
        g.map (List.map (fun v => v / 255)) ∧
      XceptionNet.preprocess (NpImage.rgba a) =
        XceptionNet.preprocess (NpImage.rgb (dropAlpha a)) := by
  have hgray : ∀ h : List (List ℝ),
      channelMean (h.map (List.map (fun v => ((v : ℝ) / 255, v / 255, v / 255)))) =
        h.map (List.map (fun v => v / 255)) := by
    intro h
    unfold channelMean
    rw [List.map_map]
    refine List.map_congr_left fun r _ => ?_
    simp only [Function.comp_apply, List.map_map]
    refine List.map_congr_left fun v _ => ?_
    simp only [Function.comp_apply]
    ring
  have hrgba : ∀ A : List (List (ℝ × ℝ × ℝ × ℝ)),
      A.map (List.map (fun p => ((p.1 : ℝ) / 255, p.2.1 / 255, p.2.2.1 / 255))) =
        (dropAlpha A).map (List.map (fun p => ((p.1 : ℝ) / 255, p.2.1 / 255, p.2.2 / 255))) := by
    intro A
    unfold dropAlpha
    rw [List.map_map]
    refine List.map_congr_left fun r _ => ?_
    simp only [Function.comp_apply, List.map_map]
    refine List.map_congr_left fun p _ => ?_
    simp only [Function.comp_apply]
  exact ⟨hgray g, hrgba a, hgray g, hrgba a⟩

end Deeptrust
